import Mathlib

/-!
Verification of the `SQLInterface` wrapper (joker-relational).

The methods of `SQLInterface` (src/joker/relational/interface.py) are
shallowly embedded as pure Lean functions.  External effects — statements
sent to the database server, file reads, sleeps, connection-pool disposal —
are recorded as explicit event traces; the database server, the file system
and the current process id are passed in as parameters.  Time is idealised:
a query attempt takes no time and `time.sleep(d)` advances the clock by
exactly `d` seconds, so the elapsed time of a call is the sum of its sleep
events.  A raised Python exception is an `Except.error` value; `Option`
results use `none` for a raised error where only one error is possible.
-/

/-- Python exception kinds relevant to this code base. -/
inductive PyErr
  | typeError
  | valueError
  | ioError
  | operationalError
  | schemaExists
  | dbError
  deriving DecidableEq

/-- Observable effects of a method call: acquiring a pooled connection,
executing a statement text, reading a file, sleeping for a duration
(seconds), and disposing the connection pool. -/
inductive Ev
  | connect
  | stmt (s : String)
  | readFile (p : String)
  | sleep (d : Int)
  | dispose
  deriving DecidableEq

/-- A table of the schema description (sqlalchemy MetaData entry): a name
and an optional schema namespace. -/
structure Table where
  name : String
  schema : Option String
  deriving DecidableEq

/-- Length of Python `range(start, stop, step)`; `none` models the
`ValueError` raised when `step = 0`. -/
def pyRangeLen (start stop step : Int) : Option Nat :=
  if 0 < step then some ((stop - start + step - 1).toNat / step.toNat)
  else if step < 0 then some ((start - stop - step - 1).toNat / (-step).toNat)
  else none

/-- The polling loop body of `SQLInterface.wait_until_server_ready`:
`n` loop iterations remain and `k` attempts were already made.
`ready j` tells whether the `j`-th readiness query succeeds (`false`
means it raised `sqlalchemy.exc.OperationalError`, the only exception
the loop catches).  Each iteration issues `SELECT 1;`; on success the
method returns at once (flag `true`), on failure it sleeps `period`
seconds and retries. -/
def waitLoop (ready : Nat → Bool) (period : Int) : Nat → Nat → List Ev × Bool
  | 0, _ => ([], false)
  | Nat.succ n, k =>
    if ready k then ([Ev.stmt "SELECT 1;"], true)
    else
      let r := waitLoop ready period n (k + 1)
      (Ev.stmt "SELECT 1;" :: Ev.sleep period :: r.1, r.2)

/-- Total seconds slept in a trace (the idealised elapsed time of the call). -/
def sleptTotal : List Ev → Int
  | [] => 0
  | Ev.sleep d :: rest => d + sleptTotal rest
  | _ :: rest => sleptTotal rest

/-- Number of readiness queries (`SELECT 1;`) issued in a trace. -/
def attemptsOf : List Ev → Nat
  | [] => 0
  | Ev.stmt s :: rest => (if s = "SELECT 1;" then 1 else 0) + attemptsOf rest
  | _ :: rest => attemptsOf rest

/-- `SQLInterface.wait_until_server_ready(timeout, period)`:
`for _ in range(0, timeout, period)` try the readiness query, catching
`OperationalError` and sleeping `period` on failure; if the loop exhausts
all iterations, sleep any remainder of the original `timeout` deadline
(`remaining := timeout + start - time.time()`); `none` models the
`ValueError` raised by `range` when `period = 0`.  The result is the
trace of events of the call. -/
def wait_until_server_ready (ready : Nat → Bool) (timeout period : Int) : Option (List Ev) :=
  match pyRangeLen 0 timeout period with
  | none => none
  | some n =>
    let r := waitLoop ready period n 0
    if r.2 then some r.1
    else
      let remaining := timeout - sleptTotal r.1
      if 0 < remaining then some (r.1 ++ [Ev.sleep remaining]) else some r.1

/-- A server that answers every readiness query. -/
def alwaysReady : Nat → Bool := fun _ => true

/-- A server whose readiness query always fails with OperationalError. -/
def neverReady : Nat → Bool := fun _ => false

/-- The fork-safety state of a `SQLInterface`: the process id recorded at
construction (`self._pid`). -/
structure Handle where
  pid : Nat
  deriving DecidableEq

/-- `SQLInterface.just_after_fork`: compares the recorded pid with the
current `os.getpid()`; on mismatch disposes the engine pool and records
the new pid. -/
def just_after_fork (h : Handle) (curPid : Nat) : Handle × List Ev :=
  if h.pid ≠ curPid then (⟨curPid⟩, [Ev.dispose]) else (h, [])

/-- `SQLInterface.execute` as an event trace: acquires a pooled connection
and executes the statement.  The method body contains no process-id
check and no pool disposal. -/
def execute_trace (h : Handle) (_curPid : Nat) (statement : String) : Handle × List Ev :=
  (h, [Ev.connect, Ev.stmt statement])

/-- `SQLInterface.execute_script(path)`: `with engine.connect() as conn`,
then `conn.execute('COMMIT;')`, then `open(path).read()` (an unreadable
file raises an I/O error at this point, after the COMMIT was already
executed), then `conn.execute(<file text>)`.  `fs` is the file system. -/
def execute_script (fs : String → Option String) (path : String) : List Ev × Except PyErr Unit :=
  match fs path with
  | none => ([Ev.connect, Ev.stmt "COMMIT;"], Except.error PyErr.ioError)
  | some txt =>
    ([Ev.connect, Ev.stmt "COMMIT;", Ev.readFile path, Ev.stmt txt], Except.ok ())

/-- Python `set.add`: a set is modelled as a duplicate-free list; adding a
present element is a no-op, otherwise the element is appended. -/
def setAdd (acc : List String) (x : String) : List String :=
  if x ∈ acc then acc else acc ++ [x]

/-- One step of the loop of `get_all_schemas`: skip a table whose schema
is `None`, otherwise add its schema namespace to the set. -/
def addSchema (acc : List String) (t : Table) : List String :=
  match t.schema with
  | none => acc
  | some sc => setAdd acc sc

/-- `SQLInterface.get_all_schemas`: starts from `{'serial'}` and adds the
schema namespace of every table of the metadata that has one. -/
def get_all_schemas (tables : List Table) : List String :=
  tables.foldl addSchema ["serial"]

/-- The schema-name set iterated by `create_all_schemas`:
`schemas = self.get_all_schemas(); schemas.add('public')`. -/
def create_all_schemas_names (tables : List Table) : List String :=
  setAdd (get_all_schemas tables) "public"

/-- Administrative DDL statements issued by `create_all_schemas` (and, for
contrast in the server model, the non-idempotent plain form). -/
inductive SqlStmt
  | createSchemaIfNotExists (name : String)
  | createSchema (name : String)
  deriving DecidableEq

/-- The SQL text of an administrative DDL statement, as formatted by the
f-strings of the source. -/
def SqlStmt.render : SqlStmt → String
  | SqlStmt.createSchemaIfNotExists n => "CREATE SCHEMA IF NOT EXISTS " ++ n ++ ";"
  | SqlStmt.createSchema n => "CREATE SCHEMA " ++ n ++ ";"

/-- `SQLInterface.create_all_schemas`: issues
`CREATE SCHEMA IF NOT EXISTS {schema};` for every name of the set. -/
def create_all_schemas (tables : List Table) : List SqlStmt :=
  (create_all_schemas_names tables).map SqlStmt.createSchemaIfNotExists

/-- Modelled PostgreSQL semantics of schema-creation DDL: the server state
is the list of existing schema names; `CREATE SCHEMA IF NOT EXISTS` never
fails, plain `CREATE SCHEMA` fails when the schema already exists. -/
def runSchemaStmt (db : List String) : SqlStmt → Except PyErr (List String)
  | SqlStmt.createSchemaIfNotExists n => Except.ok (setAdd db n)
  | SqlStmt.createSchema n =>
    if n ∈ db then Except.error PyErr.schemaExists else Except.ok (db ++ [n])

/-- Run a list of schema DDL statements in order, stopping at the first
error. -/
def runSchemaStmts : List String → List SqlStmt → Except PyErr (List String)
  | db, [] => Except.ok db
  | db, s :: rest =>
    match runSchemaStmt db s with
    | Except.error e => Except.error e
    | Except.ok db2 => runSchemaStmts db2 rest

/-- A Python value passed to `fnmatchcase` by this code base: either a
string or a sqlalchemy `Table` object. -/
inductive PyVal
  | str (s : String)
  | table (t : Table)

/-- Shell-style glob matching on characters, as produced by
`fnmatch.translate` for patterns built from `*`, `?` and literal
characters (the only forms occurring in this repository). -/
def globMatch : List Char → List Char → Bool
  | [], [] => true
  | [], _ :: _ => false
  | '*' :: ps, [] => globMatch ps []
  | '*' :: ps, c2 :: s2 => globMatch ps (c2 :: s2) || globMatch ('*' :: ps) s2
  | '?' :: ps, _ :: s2 => globMatch ps s2
  | _ :: _, [] => false
  | c :: ps, c2 :: s2 => (c = c2) && globMatch ps s2
termination_by p s => p.length + s.length

/-- Python `fnmatch.fnmatchcase(name, pat)`: compiles `pat` to a regular
expression and applies its `match` to `name`; `re` refuses a non-string
argument with `TypeError`. -/
def fnmatchcase (name : PyVal) (pat : String) : Except PyErr Bool :=
  match name with
  | PyVal.str s => Except.ok (globMatch pat.toList s.toList)
  | PyVal.table _ => Except.error PyErr.typeError

/-- The list comprehension of `create_all_tables`:
`[t for t in tables if not fnmatchcase(t, ignore)]`, evaluated left to
right, the first raised exception propagating.  Note the source passes
the `Table` value `t` itself, not `t.name`, to `fnmatchcase`. -/
def filter_tables (ignore : String) : List Table → Except PyErr (List Table)
  | [] => Except.ok []
  | t :: rest =>
    match fnmatchcase (PyVal.table t) ignore with
    | Except.error e => Except.error e
    | Except.ok b =>
      match filter_tables ignore rest with
      | Except.error e => Except.error e
      | Except.ok l => Except.ok (if b then l else t :: l)

/-- `SQLInterface.create_all_tables(ignore='*_view')` of interface.py:
when `ignore` is truthy, filters the metadata's tables through
`fnmatchcase(t, ignore)` before handing them to
`metadata.create_all(engine, tables=...)`; the returned list is the
`tables=` argument of that call. -/
def create_all_tables (tables : List Table) (ignore : String) : Except PyErr (List Table) :=
  if ignore = "" then Except.ok tables else filter_tables ignore tables

/-- The SQL text issued by `refresh_materialized_views` for one view. -/
def rmv_stmt (concurrently : Bool) (v : String) : String :=
  if concurrently then "REFRESH MATERIALIZED VIEW CONCURRENTLY " ++ v ++ ";"
  else "REFRESH MATERIALIZED VIEW " ++ v ++ ";"

/-- The loop of `refresh_materialized_views`: executes one refresh per
view name in order; `fails st` tells whether executing statement `st`
raises a database error, which propagates and stops the loop.  Returns
the statements issued (in order) and the error, if one was raised. -/
def rmvLoop (fails : String → Bool) (concurrently : Bool) : List String → List String × Option PyErr
  | [] => ([], none)
  | v :: rest =>
    let st := rmv_stmt concurrently v
    if fails st then ([st], some PyErr.dbError)
    else
      let r := rmvLoop fails concurrently rest
      (st :: r.1, r.2)

/-- `SQLInterface.refresh_materialized_views(mviews, concurrently)`:
issues one refresh statement per view name, in list order, one at a time,
and returns the given list `mviews` unchanged; a raised database error
propagates immediately. -/
def refresh_materialized_views (fails : String → Bool) (mviews : List String) (concurrently : Bool) : List String × Except PyErr (List String) :=
  let r := rmvLoop fails concurrently mviews
  match r.2 with
  | none => (r.1, Except.ok mviews)
  | some e => (r.1, Except.error e)

/-- The database server as seen by `execute` and `exists`: whether
`engine.connect()` succeeds, and the scalar outcome of running a
statement on an established connection (`none` is SQL NULL / no row). -/
structure Server where
  reachable : Bool
  run : String → Except PyErr (Option Int)

/-- `SQLInterface.execute(statement)` outcome against a server model:
`engine.connect()` raises `OperationalError` when the server is
unreachable; otherwise the statement's result (or raised error) is
passed through unchanged — the method installs no exception handler. -/
def execute_sql (sv : Server) (statement : String) : Except PyErr (Option Int) :=
  if sv.reachable then sv.run statement else Except.error PyErr.operationalError

/-- Python truthiness of a scalar query result: `bool(None)` and
`bool(0)` are false, any other integer is true. -/
def pyBool : Option Int → Bool
  | none => false
  | some n => n != 0

/-- The catalog query text of `SQLInterface.exists`. -/
def existsSql (database : String) : String :=
  "SELECT 1 FROM pg_database WHERE datname=\x27" ++ database ++ "\x27;"

/-- `SQLInterface.exists(database)`: runs the catalog query through
`execute`; an `OperationalError` is caught and downgraded to `False`,
any other error propagates. -/
def exists_db (sv : Server) (database : String) : Except PyErr Bool :=
  match execute_sql sv (existsSql database) with
  | Except.ok v => Except.ok (pyBool v)
  | Except.error PyErr.operationalError => Except.ok false
  | Except.error e => Except.error e

/-! ## Helper lemmas -/

theorem mem_setAdd (acc : List String) (x y : String) :
    y ∈ setAdd acc x ↔ y ∈ acc ∨ y = x := by
  unfold setAdd
  by_cases h : x ∈ acc
  · rw [if_pos h]
    constructor
    · exact fun hy => Or.inl hy
    · rintro (hy | rfl)
      · exact hy
      · exact h
  · rw [if_neg h]
    simp

theorem nodup_setAdd (acc : List String) (x : String) (h : acc.Nodup) :
    (setAdd acc x).Nodup := by
  unfold setAdd
  by_cases hx : x ∈ acc
  · rw [if_pos hx]; exact h
  · rw [if_neg hx]
    rw [List.nodup_append]
    refine ⟨h, List.nodup_singleton x, ?_⟩
    intro a ha hax
    simp at hax
    exact hx (hax ▸ ha)

theorem mem_foldl_addSchema (tables : List Table) (acc : List String) (x : String) :
    x ∈ tables.foldl addSchema acc ↔ x ∈ acc ∨ ∃ t, t ∈ tables ∧ t.schema = some x := by
  induction tables generalizing acc with
  | nil => simp
  | cons t rest ih =>
    rw [List.foldl_cons, ih]
    unfold addSchema
    cases ht : t.schema with
    | none =>
      constructor
      · rintro (hx | ⟨u, hu, hs⟩)
        · exact Or.inl hx
        · exact Or.inr ⟨u, List.mem_cons_of_mem t hu, hs⟩
      · rintro (hx | ⟨u, hu, hs⟩)
        · exact Or.inl hx
        · rcases List.mem_cons.mp hu with rfl | hu
          · rw [ht] at hs; cases hs
          · exact Or.inr ⟨u, hu, hs⟩
    | some sc =>
      rw [mem_setAdd]
      constructor
      · rintro ((hx | rfl) | ⟨u, hu, hs⟩)
        · exact Or.inl hx
        · exact Or.inr ⟨t, List.mem_cons_self t rest, ht⟩
        · exact Or.inr ⟨u, List.mem_cons_of_mem t hu, hs⟩
      · rintro (hx | ⟨u, hu, hs⟩)
        · exact Or.inl (Or.inl hx)
        · rcases List.mem_cons.mp hu with rfl | hu
          · rw [ht] at hs
            exact Or.inl (Or.inr (by injection hs with h2; exact h2.symm))
          · exact Or.inr ⟨u, hu, hs⟩

theorem nodup_foldl_addSchema (tables : List Table) (acc : List String) (h : acc.Nodup) :
    (tables.foldl addSchema acc).Nodup := by
  induction tables generalizing acc with
  | nil => exact h
  | cons t rest ih =>
    rw [List.foldl_cons]
    apply ih
    unfold addSchema
    cases t.schema with
    | none => exact h
    | some sc => exact nodup_setAdd acc sc h

theorem mem_get_all_schemas (tables : List Table) (x : String) :
    x ∈ get_all_schemas tables ↔ x = "serial" ∨ ∃ t, t ∈ tables ∧ t.schema = some x := by
  unfold get_all_schemas
  rw [mem_foldl_addSchema]
  simp

theorem nodup_get_all_schemas (tables : List Table) : (get_all_schemas tables).Nodup := by
  unfold get_all_schemas
  exact nodup_foldl_addSchema tables ["serial"] (List.nodup_singleton _)

theorem runSchemaStmts_ifNotExists_ok (stmts : List SqlStmt)
    (h : ∀ st ∈ stmts, ∃ n, st = SqlStmt.createSchemaIfNotExists n) :
    ∀ db, ∃ db2, runSchemaStmts db stmts = Except.ok db2 := by
  induction stmts with
  | nil => intro db; exact ⟨db, rfl⟩
  | cons s rest ih =>
    intro db
    obtain ⟨n, rfl⟩ := h s (List.mem_cons_self s rest)
    obtain ⟨db2, hdb2⟩ := ih (fun st hst => h st (List.mem_cons_of_mem _ hst)) (setAdd db n)
    exact ⟨db2, by simpa [runSchemaStmts, runSchemaStmt] using hdb2⟩

theorem rmvLoop_ok (fails : String → Bool) (conc : Bool) (mviews : List String)
    (h : ∀ v ∈ mviews, fails (rmv_stmt conc v) = false) :
    rmvLoop fails conc mviews = (mviews.map (rmv_stmt conc), none) := by
  induction mviews with
  | nil => rfl
  | cons v rest ih =>
    have hv := h v (List.mem_cons_self v rest)
    have hrest := ih (fun u hu => h u (List.mem_cons_of_mem _ hu))
    simp [rmvLoop, hv, hrest]

theorem rmvLoop_fail (fails : String → Bool) (conc : Bool) (pre post : List String) (v : String)
    (hpre : ∀ u ∈ pre, fails (rmv_stmt conc u) = false)
    (hv : fails (rmv_stmt conc v) = true) :
    rmvLoop fails conc (pre ++ v :: post) =
      (pre.map (rmv_stmt conc) ++ [rmv_stmt conc v], some PyErr.dbError) := by
  induction pre with
  | nil => simp [rmvLoop, hv]
  | cons u pre ih =>
    have hu := hpre u (List.mem_cons_self u pre)
    have hrec := ih (fun w hw => hpre w (List.mem_cons_of_mem _ hw))
    simp [rmvLoop, hu, hrec]

/-! ## Claim theorems -/

/-- C2, counterexample: in a forked child (current pid 2, recorded pid 1),
`execute` acquires and uses a pooled connection without any pool disposal
and without updating the recorded pid — the first operation after a fork
does not trigger disposal, contrary to the claim. -/
theorem C2_cex :
    execute_trace ⟨1⟩ 2 "SELECT 1;" = (⟨1⟩, [Ev.connect, Ev.stmt "SELECT 1;"]) ∧
    Ev.dispose ∉ [Ev.connect, Ev.stmt "SELECT 1;"] := by
  exact ⟨rfl, by decide⟩

/-- C2, amended: the process-id check lives only in `just_after_fork`,
which callers must invoke themselves.  Called in a process whose pid
differs from the recorded one, it disposes the pool exactly once and
records the new pid; called again in the same process it does nothing;
`execute` itself performs no pid check and never disposes the pool. -/
theorem C2_amended (p c : Nat) (statement : String) (hpc : p ≠ c) :
    just_after_fork ⟨p⟩ c = (⟨c⟩, [Ev.dispose]) ∧
    just_after_fork ⟨c⟩ c = (⟨c⟩, []) ∧
    execute_trace ⟨p⟩ c statement = (⟨p⟩, [Ev.connect, Ev.stmt statement]) := by
  refine ⟨?_, ?_, rfl⟩
  · simp [just_after_fork, hpc]
  · simp [just_after_fork]

/-- C2, witness: concrete fork from pid 1 to pid 2. -/
theorem C2_witness :
    just_after_fork ⟨1⟩ 2 = (⟨2⟩, [Ev.dispose]) ∧
    just_after_fork ⟨2⟩ 2 = (⟨2⟩, []) ∧
    execute_trace ⟨1⟩ 2 "COMMIT;" = (⟨1⟩, [Ev.connect, Ev.stmt "COMMIT;"]) :=
  C2_amended 1 2 "COMMIT;" (by decide)

/-- C3, code bug: `create_all_tables` of interface.py hands the `Table`
value itself (not its name) to `fnmatchcase`, whose regex match requires
a string, so with the default pattern it raises `TypeError` on any
metadata holding a table — a table named `orders` is never passed to
`metadata.create_all`, and neither is `orders_view`. -/
theorem C3_bug :
    create_all_tables [⟨"orders", none⟩] "*_view" = Except.error PyErr.typeError ∧
    create_all_tables [⟨"orders_view", none⟩] "*_view" = Except.error PyErr.typeError ∧
    create_all_tables [] "*_view" = Except.ok [] := by
  exact ⟨rfl, rfl, rfl⟩

/-- C5, counterexample: with an unreadable file, `execute_script` has
already sent the `COMMIT;` statement to the database before the read
fails with an I/O error — contradicting the claim that a read failure
happens before any statement is sent. -/
theorem C5_cex :
    execute_script (fun _ => none) "init.sql" =
      ([Ev.connect, Ev.stmt "COMMIT;"], Except.error PyErr.ioError) ∧
    Ev.stmt "COMMIT;" ∈ (execute_script (fun _ => none) "init.sql").1 := by
  exact ⟨rfl, by decide⟩

/-- C5, amended: `execute_script` connects, issues `COMMIT;` first, then
opens and reads the file, then executes its contents; if the file cannot
be read it fails with an I/O error after the COMMIT was already sent but
before the script contents are sent. -/
theorem C5_amended (fs : String → Option String) (path : String) :
    (∀ txt, fs path = some txt →
      execute_script fs path =
        ([Ev.connect, Ev.stmt "COMMIT;", Ev.readFile path, Ev.stmt txt], Except.ok ())) ∧
    (fs path = none →
      execute_script fs path = ([Ev.connect, Ev.stmt "COMMIT;"], Except.error PyErr.ioError)) := by
  constructor
  · intro txt h
    simp [execute_script, h]
  · intro h
    simp [execute_script, h]

/-- C5, witness: a readable script runs COMMIT, then the read, then the
script text. -/
theorem C5_witness :
    execute_script (fun _ => some "CREATE TABLE t (x INT);") "schema.sql" =
      ([Ev.connect, Ev.stmt "COMMIT;", Ev.readFile "schema.sql",
        Ev.stmt "CREATE TABLE t (x INT);"], Except.ok ()) :=
  (C5_amended (fun _ => some "CREATE TABLE t (x INT);") "schema.sql").1
    "CREATE TABLE t (x INT);" rfl

/-- C6, confirmed: `get_all_schemas` returns exactly the set of schema
namespaces referenced by some table of the metadata plus the fixed name
"serial"; in particular "serial" is always a member, and set semantics
hold (no duplicates). -/
theorem C6_thm (tables : List Table) :
    "serial" ∈ get_all_schemas tables ∧
    (∀ x, x ∈ get_all_schemas tables ↔
      x = "serial" ∨ ∃ t, t ∈ tables ∧ t.schema = some x) ∧
    (get_all_schemas tables).Nodup := by
  refine ⟨?_, mem_get_all_schemas tables, nodup_get_all_schemas tables⟩
  rw [mem_get_all_schemas]
  exact Or.inl rfl

/-- C7, confirmed: `create_all_schemas` issues exactly one
`CREATE SCHEMA IF NOT EXISTS {name};` statement per name of
`get_all_schemas` plus the fixed name "public" and no statement for any
other name (the issued list holds exactly those statements, without
duplicates), and every issued statement is idempotent on the modelled
server, so running the whole batch twice from any server state raises no
error. -/
theorem C7_thm (tables : List Table) :
    (∀ n, SqlStmt.createSchemaIfNotExists n ∈ create_all_schemas tables ↔
      (n = "public" ∨ n ∈ get_all_schemas tables)) ∧
    (∀ st ∈ create_all_schemas tables,
      ∃ n, st = SqlStmt.createSchemaIfNotExists n ∧
        st.render = "CREATE SCHEMA IF NOT EXISTS " ++ n ++ ";") ∧
    (create_all_schemas tables).Nodup ∧
    (∀ db, ∃ db1 db2, runSchemaStmts db (create_all_schemas tables) = Except.ok db1 ∧
      runSchemaStmts db1 (create_all_schemas tables) = Except.ok db2) := by
  have hshape : ∀ st ∈ create_all_schemas tables,
      ∃ n, st = SqlStmt.createSchemaIfNotExists n := by
    intro st hst
    obtain ⟨n, _, rfl⟩ := List.mem_map.mp hst
    exact ⟨n, rfl⟩
  refine ⟨?_, ?_, ?_, ?_⟩
  · intro n
    unfold create_all_schemas create_all_schemas_names
    rw [List.mem_map]
    constructor
    · rintro ⟨m, hm, hinj⟩
      injection hinj with h
      subst h
      rcases (mem_setAdd _ _ _).mp hm with hm | rfl
      · exact Or.inr hm
      · exact Or.inl rfl
    · rintro (rfl | hn)
      · exact ⟨"public", (mem_setAdd _ _ _).mpr (Or.inr rfl), rfl⟩
      · exact ⟨n, (mem_setAdd _ _ _).mpr (Or.inl hn), rfl⟩
  · intro st hst
    obtain ⟨n, rfl⟩ := hshape st hst
    exact ⟨n, rfl, rfl⟩
  · unfold create_all_schemas
    refine List.Nodup.map ?_ (nodup_setAdd _ _ (nodup_get_all_schemas tables))
    intro a b hab
    injection hab
  · intro db
    obtain ⟨db1, h1⟩ := runSchemaStmts_ifNotExists_ok (create_all_schemas tables) hshape db
    obtain ⟨db2, h2⟩ := runSchemaStmts_ifNotExists_ok (create_all_schemas tables) hshape db1
    exact ⟨db1, db2, h1, h2⟩

/-- C8, confirmed: `refresh_materialized_views` issues exactly one
refresh statement per view name, in list order, and returns the given
list unchanged; if executing the statement of some view raises a
database error, the error propagates at once and no statement is issued
for the remaining views. -/
theorem C8_thm (fails : String → Bool) (conc : Bool) :
    (∀ mviews : List String, (∀ v ∈ mviews, fails (rmv_stmt conc v) = false) →
      refresh_materialized_views fails mviews conc =
        (mviews.map (rmv_stmt conc), Except.ok mviews)) ∧
    (∀ (pre post : List String) (v : String),
      (∀ u ∈ pre, fails (rmv_stmt conc u) = false) →
      fails (rmv_stmt conc v) = true →
      refresh_materialized_views fails (pre ++ v :: post) conc =
        (pre.map (rmv_stmt conc) ++ [rmv_stmt conc v], Except.error PyErr.dbError)) := by
  constructor
  · intro mviews h
    simp [refresh_materialized_views, rmvLoop_ok fails conc mviews h]
  · intro pre post v hpre hv
    simp [refresh_materialized_views, rmvLoop_fail fails conc pre post v hpre hv]

/-- C8, witness: refreshing `["v1", "v2"]` with no failures issues the two
concurrent refresh statements in order and returns the list unchanged. -/
theorem C8_witness :
    refresh_materialized_views (fun _ => false) ["v1", "v2"] true =
      (["REFRESH MATERIALIZED VIEW CONCURRENTLY v1;",
        "REFRESH MATERIALIZED VIEW CONCURRENTLY v2;"], Except.ok ["v1", "v2"]) := by
  have h := (C8_thm (fun _ => false) true).1 ["v1", "v2"] (fun v _ => rfl)
  simpa [rmv_stmt] using h

/-- C9, confirmed: `exists` downgrades a connection-level operational
error of its catalog query to the boolean `False` and otherwise returns
the truthiness of the scalar result, while `execute` catches nothing: an
unreachable server makes `execute` raise `OperationalError`, and any
error raised while running a statement propagates out of `execute`
unchanged. -/
theorem C9_thm (sv : Server) (database : String) :
    (execute_sql sv (existsSql database) = Except.error PyErr.operationalError →
      exists_db sv database = Except.ok false) ∧
    (∀ v, execute_sql sv (existsSql database) = Except.ok v →
      exists_db sv database = Except.ok (pyBool v)) ∧
    (∀ statement e, sv.reachable = true → sv.run statement = Except.error e →
      execute_sql sv statement = Except.error e) ∧
    (sv.reachable = false → ∀ statement,
      execute_sql sv statement = Except.error PyErr.operationalError) := by
  refine ⟨?_, ?_, ?_, ?_⟩
  · intro h
    unfold exists_db
    rw [h]
  · intro v h
    unfold exists_db
    rw [h]
  · intro statement e hr hrun
    unfold execute_sql
    rw [hr, if_pos rfl, hrun]
  · intro hr statement
    unfold execute_sql
    rw [hr]
    rfl

/-- C9, witness: against an unreachable server, `exists` returns `False`
while a bare `execute` of the same query raises `OperationalError`. -/
theorem C9_witness :
    exists_db ⟨false, fun _ => Except.ok (some 1)⟩ "mydb" = Except.ok false ∧
    execute_sql ⟨false, fun _ => Except.ok (some 1)⟩ (existsSql "mydb") =
      Except.error PyErr.operationalError := by
  have h := C9_thm ⟨false, fun _ => Except.ok (some 1)⟩ "mydb"
  exact ⟨h.1 rfl, h.2.2.2 rfl (existsSql "mydb")⟩

theorem sleptTotal_append (a b : List Ev) :
    sleptTotal (a ++ b) = sleptTotal a + sleptTotal b := by
  induction a with
  | nil => simp [sleptTotal]
  | cons e a ih =>
    cases e <;> simp [sleptTotal, ih]
    omega

theorem waitLoop_allFail (ready : Nat → Bool) (period : Int)
    (h : ∀ j, ready j = false) :
    ∀ n k, (waitLoop ready period n k).2 = false ∧
      sleptTotal (waitLoop ready period n k).1 = n * period ∧
      attemptsOf (waitLoop ready period n k).1 = n := by
  intro n
  induction n with
  | zero =>
    intro k
    simp [waitLoop, sleptTotal, attemptsOf]
  | succ n ih =>
    intro k
    obtain ⟨h1, h2, h3⟩ := ih (k + 1)
    refine ⟨?_, ?_, ?_⟩
    · simp [waitLoop, h k, h1]
    · simp [waitLoop, h k, sleptTotal, h2]
      ring
    · simp [waitLoop, h k, attemptsOf, h3]
      omega

theorem ceil_bounds (T p : Nat) (hp : 0 < p) (hT : 0 < T) :
    T ≤ ((T + p - 1) / p) * p ∧ (((T + p - 1) / p) - 1) * p < T := by
  obtain ⟨t, rfl⟩ : ∃ t, T = t + 1 := ⟨T - 1, by omega⟩
  have hkey : (t + 1 + p - 1) / p = t / p + 1 := by
    have he : t + 1 + p - 1 = t + p := by omega
    rw [he, Nat.add_div_right t hp]
  rw [hkey]
  constructor
  · have hgen : t + 1 ≤ p * (t / p) + p := by
      have h1 := Nat.div_add_mod t p
      have h2 : t % p < p := Nat.mod_lt t hp
      generalize hm : p * (t / p) = m at h1 ⊢
      generalize hr : t % p = r at h1 h2
      omega
    calc t + 1 ≤ p * (t / p) + p := hgen
      _ = (t / p + 1) * p := by ring
  · rw [Nat.add_sub_cancel]
    exact Nat.lt_succ_of_le (Nat.div_mul_le_self t p)

/-- C1, counterexample: with the server ready on the first attempt,
`wait_until_server_ready(30, 3)` returns at once with zero seconds
elapsed — before the 30-second deadline, with no settle sleep —
contradicting the claim that the call never returns before `timeout`
seconds have elapsed even when the readiness query succeeds early. -/
theorem C1_cex :
    wait_until_server_ready alwaysReady 30 3 = some [Ev.stmt "SELECT 1;"] ∧
    sleptTotal [Ev.stmt "SELECT 1;"] = 0 ∧ (0 : Int) < 30 := by
  exact ⟨rfl, rfl, by decide⟩

/-- C1, amended: the settle delay applies only when the polling loop
exhausts its attempts: if every readiness query fails (and `period > 0`),
the loop's sleeps plus any slept remainder of the deadline guarantee the
call does not return before `timeout` seconds have elapsed; when a query
succeeds, the function returns at once, possibly well before `timeout`. -/
theorem C1_amended (ready : Nat → Bool) (timeout period : Int)
    (hp : 0 < period) (h : ∀ j, ready j = false) :
    ∃ evs, wait_until_server_ready ready timeout period = some evs ∧
      timeout ≤ sleptTotal evs := by
  have hrange : pyRangeLen 0 timeout period =
      some ((timeout - 0 + period - 1).toNat / period.toNat) := by
    unfold pyRangeLen
    rw [if_pos hp]
  set n := (timeout - 0 + period - 1).toNat / period.toNat with hn
  obtain ⟨h1, h2, h3⟩ := waitLoop_allFail ready period h n 0
  by_cases hrem : 0 < timeout - sleptTotal (waitLoop ready period n 0).1
  · refine ⟨(waitLoop ready period n 0).1 ++
      [Ev.sleep (timeout - sleptTotal (waitLoop ready period n 0).1)], ?_, ?_⟩
    · simp [wait_until_server_ready, hrange, h1, hrem]
    · rw [sleptTotal_append]
      simp [sleptTotal]
  · refine ⟨(waitLoop ready period n 0).1, ?_, ?_⟩
    · simp [wait_until_server_ready, hrange, h1, hrem]
    · omega

/-- C1, witness: an always-failing target with `timeout=30, period=3`
returns only after at least 30 seconds have elapsed. -/
theorem C1_witness :
    ∃ evs, wait_until_server_ready neverReady 30 3 = some evs ∧
      (30 : Int) ≤ sleptTotal evs :=
  C1_amended neverReady 30 3 (by decide) (fun j => rfl)

/-- C4, counterexample: `wait_until_server_ready(6, 0)` against an
always-failing target raises `ValueError` (from `range(0, 6, 0)`) rather
than returning — contradicting the claim that the function never raises
for every call. -/
theorem C4_cex : wait_until_server_ready neverReady 6 0 = none := rfl

/-- C4, amended: for `timeout > 0` and `period > 0`, against a target
whose readiness query always fails with an operational error, the
function attempts the query exactly `ceil(timeout/period)` times (the
attempt count `a` is characterised by `(a-1)*period < timeout ≤
a*period`; 3 attempts for `timeout=6, period=2`), never raises, and
returns after an elapsed time of at least `timeout` and less than
`timeout + period` seconds. -/
theorem C4_amended (ready : Nat → Bool) (timeout period : Int)
    (hT : 0 < timeout) (hp : 0 < period) (h : ∀ j, ready j = false) :
    ∃ evs, wait_until_server_ready ready timeout period = some evs ∧
      timeout ≤ (attemptsOf evs : Int) * period ∧
      ((attemptsOf evs : Int) - 1) * period < timeout ∧
      timeout ≤ sleptTotal evs ∧ sleptTotal evs < timeout + period := by
  have hpT : (timeout - 0 + period - 1).toNat = timeout.toNat + period.toNat - 1 := by
    omega
  have hrange : pyRangeLen 0 timeout period =
      some ((timeout.toNat + period.toNat - 1) / period.toNat) := by
    unfold pyRangeLen
    rw [if_pos hp, hpT]
  set n := (timeout.toNat + period.toNat - 1) / period.toNat with hn
  obtain ⟨b1, b2⟩ := ceil_bounds timeout.toNat period.toNat (by omega) (by omega)
  rw [← hn] at b1 b2
  have hTi : ((timeout.toNat : Int)) = timeout := Int.toNat_of_nonneg (le_of_lt hT)
  have hpi : ((period.toNat : Int)) = period := Int.toNat_of_nonneg (le_of_lt hp)
  have hn1 : 1 ≤ n := by
    rcases Nat.eq_zero_or_pos n with h0 | h1
    · rw [h0, Nat.zero_mul] at b1
      omega
    · exact h1
  have hb1i : timeout ≤ (n : Int) * period := by
    calc timeout = ((timeout.toNat : Int)) := hTi.symm
      _ ≤ ((n * period.toNat : Nat) : Int) := by exact_mod_cast b1
      _ = (n : Int) * period := by rw [Nat.cast_mul, hpi]
  have hb2i : ((n : Int) - 1) * period < timeout := by
    have hcast : (((n - 1) * period.toNat : Nat) : Int) = ((n : Int) - 1) * period := by
      rw [Nat.cast_mul, Nat.cast_sub hn1, hpi, Nat.cast_one]
    calc ((n : Int) - 1) * period = (((n - 1) * period.toNat : Nat) : Int) := hcast.symm
      _ < ((timeout.toNat : Int)) := by exact_mod_cast b2
      _ = timeout := hTi
  have hb3i : (n : Int) * period < timeout + period := by
    calc (n : Int) * period = ((n : Int) - 1) * period + period := by ring
      _ < timeout + period := by linarith
  obtain ⟨h1, h2, h3⟩ := waitLoop_allFail ready period h n 0
  have hnot : ¬ (0 < timeout - sleptTotal (waitLoop ready period n 0).1) := by
    rw [h2]
    push_neg
    linarith
  refine ⟨(waitLoop ready period n 0).1, ?_, ?_, ?_, ?_, ?_⟩
  · simp [wait_until_server_ready, hrange, h1, hnot]
  · rw [h3]
    exact hb1i
  · rw [h3]
    exact hb2i
  · rw [h2]
    exact hb1i
  · rw [h2]
    exact hb3i

/-- C4, witness: `timeout=6, period=2` against an always-failing target:
the call returns (raises nothing), its attempt count `a` satisfies
`(a-1)*2 < 6 ≤ a*2` (so `a = 3`), and the elapsed time lies in `[6, 8)`. -/
theorem C4_witness :
    ∃ evs, wait_until_server_ready neverReady 6 2 = some evs ∧
      (6 : Int) ≤ (attemptsOf evs : Int) * 2 ∧
      ((attemptsOf evs : Int) - 1) * 2 < 6 ∧
      (6 : Int) ≤ sleptTotal evs ∧ sleptTotal evs < 6 + 2 :=
  C4_amended neverReady 6 2 (by decide) (by decide) (fun j => rfl)

/-- C10, counterexample: with `timeout = -2` and `period = -1`,
`range(0, -2, -1)` is a two-element range, so the loop body runs and the
readiness query is issued even though `timeout ≤ 0` — contradicting the
claim for every call with non-positive timeout. -/
theorem C10_cex :
    wait_until_server_ready alwaysReady (-2) (-1) = some [Ev.stmt "SELECT 1;"] ∧
    attemptsOf [Ev.stmt "SELECT 1;"] = 1 := by
  exact ⟨rfl, rfl⟩

/-- C10, amended: for `timeout ≤ 0` and `period > 0`, `range(0, timeout,
period)` is empty, so the polling loop body never runs: the function
returns without issuing any readiness query and without sleeping,
whatever the server's state. -/
theorem C10_amended (ready : Nat → Bool) (timeout period : Int)
    (hp : 0 < period) (hT : timeout ≤ 0) :
    wait_until_server_ready ready timeout period = some [] := by
  have hzero : (timeout - 0 + period - 1).toNat < period.toNat := by omega
  have hrange : pyRangeLen 0 timeout period = some 0 := by
    unfold pyRangeLen
    rw [if_pos hp, Nat.div_eq_of_lt hzero]
  have hnot : ¬ (0 < timeout - sleptTotal (waitLoop ready period 0 0).1) := by
    simp [waitLoop, sleptTotal]
    omega
  simp [wait_until_server_ready, hrange, waitLoop, hnot, sleptTotal]
  omega

/-- C10, witness: `timeout = -5, period = 3` against a fully ready server
still issues no query and no sleep. -/
theorem C10_witness :
    wait_until_server_ready alwaysReady (-5) 3 = some [] :=
  C10_amended alwaysReady (-5) 3 (by decide) (by decide)
